import Mathlib

/-!
Verification of the SimpleSkale 4.0 embroidery core (EmbroiderSize repository).

This file is a shallow embedding, in Lean 4, of the TypeScript core:
  * the data model (`src/types/index.ts`),
  * the calculation utilities (`src/utils/calculations.ts`),
  * the validation engine (`src/engine/validator.ts`),
  * the rescaling engine (`src/engine/simpleskale.ts`),
  * the DST writer (`src/lib/writers/dst.ts`) and the DST and PES stitch
    parsers (`src/lib/parsers/dst.ts`, `src/lib/parsers/pes.ts`).

JavaScript numbers are modelled as rationals (`ℚ`).  `Math.sqrt` is the one
operation that leaves the rationals; every function that calls it takes an
explicit `sqrtq : ℚ → ℚ` parameter standing for the square-root routine, and
theorems about the engine are proved for every such function.  Witnesses
instantiate `sqrtq` with `ratSqrt`, a computable floor square root that agrees
with the exact square root on perfect squares.  Effects (`crypto.randomUUID()`,
`new Date()`) are passed in as explicit arguments (`newId`, `now`).
-/

/- Mathlib marks the `Rat` field operations irreducible, which blocks `decide`
on concrete rational computations; restore the default reducibility so that
concrete witnesses evaluate. -/
set_option allowUnsafeReducibility true in
attribute [semireducible] Rat.sub Rat.add Rat.mul Rat.div Rat.neg Rat.inv
  Rat.ofScientific

/-- A point, `{x, y}` in 1/10 mm logical units (source: `Point`). -/
structure Point where
  x : ℚ
  y : ℚ
deriving DecidableEq

/-- The closed stitch-type variant (source: `StitchType`).  The source's
`"end"` literal is rendered `end_` because `end` is a Lean keyword. -/
inductive StitchType
  | run | bean | satin | fill | jump | trim | stop | end_
deriving DecidableEq

/-- A stitch (source: `Stitch`).  The optional `data` payload is never read by
the core and is omitted. -/
structure Stitch where
  position : Point
  type : StitchType
  colorIndex : ℤ
deriving DecidableEq

/-- A color block (source: `ColorBlock`). -/
structure ColorBlock where
  colorIndex : ℤ
  stitches : List Stitch
deriving DecidableEq

/-- A thread color entry (source: `Thread`). -/
structure Thread where
  color : String
  brand : Option String
  catalogNumber : Option String
  colorName : Option String
deriving DecidableEq

/-- A machine profile (source: `MachineProfile`). -/
structure MachineProfile where
  id : String
  name : String
  maxHoopWidthMm : ℚ
  maxHoopHeightMm : ℚ
  maxStitchLengthMm : ℚ
  minStitchLengthMm : ℚ
  recommendedMaxDensityStitchesPerMm2 : ℚ
  recommendedMinDensityStitchesPerMm2 : ℚ
  safeModeDefault : Bool
deriving DecidableEq

/-- Design metadata (source: `DesignMetadata`).  Dates are modelled as natural
timestamps. -/
structure DesignMetadata where
  originalWidthMm : ℚ
  originalHeightMm : ℚ
  scaleFactor : ℚ
  originalStitchCount : ℕ
  currentStitchCount : ℕ
  createdAt : Option ℕ
  modifiedAt : Option ℕ
  fileName : Option String
deriving DecidableEq

/-- The aggregate design document (source: `DesignDocument`). -/
structure DesignDocument where
  id : String
  name : String
  originalFormat : String
  colorBlocks : List ColorBlock
  threads : List Thread
  machineProfile : MachineProfile
  metadata : DesignMetadata
deriving DecidableEq

/-- The built-in Brother PP1 profile (source: `BROTHER_PP1_PROFILE`). -/
def BROTHER_PP1_PROFILE : MachineProfile :=
  { id := "brother-pp1"
    name := "Brother Skitch PP1"
    maxHoopWidthMm := 100
    maxHoopHeightMm := 100
    maxStitchLengthMm := 3
    minStitchLengthMm := 0.3
    recommendedMaxDensityStitchesPerMm2 := 15
    recommendedMinDensityStitchesPerMm2 := 2
    safeModeDefault := true }

/-- Bounding box (source: `BoundingBox`). -/
structure BoundingBox where
  minX : ℚ
  minY : ℚ
  maxX : ℚ
  maxY : ℚ
  width : ℚ
  height : ℚ
deriving DecidableEq

/-- Squared Euclidean distance; `distance` in the source is
`Math.sqrt (dx*dx + dy*dy)` and is modelled as `sqrtq` applied to this. -/
def distSq (p1 p2 : Point) : ℚ :=
  (p2.x - p1.x) * (p2.x - p1.x) + (p2.y - p1.y) * (p2.y - p1.y)

/-- Euclidean distance (source: `distance` in `calculations.ts`), parametric in
the square-root routine. -/
def distance (sqrtq : ℚ → ℚ) (p1 p2 : Point) : ℚ :=
  sqrtq (distSq p1 p2)

/-- Linear interpolation between two points (source: `interpolatePoint`). -/
def interpolatePoint (p1 p2 : Point) (t : ℚ) : Point :=
  ⟨p1.x + (p2.x - p1.x) * t, p1.y + (p2.y - p1.y) * t⟩

/-- Floor of a rational, computed on the numerator and denominator. -/
def ratFloor (q : ℚ) : ℤ :=
  Int.fdiv q.num q.den

/-- JavaScript's `Math.round`: floor of `q + 1/2` (rounds half-up, also for
negative arguments, exactly like `Math.round`). -/
def jsRound (q : ℚ) : ℤ :=
  ratFloor (q + 1/2)

/-- The largest `k ≤ m` with `k * k ≤ n` (a structurally recursive floor
square root when `m = n`, so that it evaluates by reduction). -/
def natSqrtBelow : ℕ → ℕ → ℕ
  | 0, _ => 0
  | k + 1, n => if (k + 1) * (k + 1) ≤ n then k + 1 else natSqrtBelow k n

/-- A computable floor square root on `ℚ`: exact on perfect squares.  Used
only to instantiate the `sqrtq` parameter in concrete witnesses. -/
def ratSqrt (q : ℚ) : ℚ :=
  if q ≤ 0 then 0
  else (natSqrtBelow (q.num.toNat * q.den) (q.num.toNat * q.den) : ℚ) /
    (q.den : ℚ)

/-- All stitches of a block list in order (source: `colorBlocks.flatMap`). -/
def allStitches (blocks : List ColorBlock) : List Stitch :=
  blocks.flatMap fun b => b.stitches

/-- Bounding box of a stitch list (source: `calculateBoundingBox`).  The
source seeds the fold with `±Infinity`; for a non-empty list this is the same
as seeding with the first element, and the empty case returns zeroes. -/
def calculateBoundingBox (stitches : List Stitch) : BoundingBox :=
  match stitches with
  | [] => ⟨0, 0, 0, 0, 0, 0⟩
  | s :: rest =>
    let f := rest.foldl
      (fun (a : ℚ × ℚ × ℚ × ℚ) t =>
        (min a.1 t.position.x, min a.2.1 t.position.y,
         max a.2.2.1 t.position.x, max a.2.2.2 t.position.y))
      (s.position.x, s.position.y, s.position.x, s.position.y)
    ⟨f.1, f.2.1, f.2.2.1, f.2.2.2, f.2.2.1 - f.1, f.2.2.2 - f.2.1⟩

/-- Resize percentage (source: `calculateResizePercentage`). -/
def calculateResizePercentage (original newSize : ℚ) : ℚ :=
  if original = 0 then 0 else (newSize - original) / original * 100

/-- Validation severity levels (source: `ValidationLevel`). -/
inductive ValidationLevel
  | safe | warning | danger | critical
deriving DecidableEq

/-- A graded validation result (source: `ValidationResult`). -/
structure ValidationResult where
  level : ValidationLevel
  message : String
  canProceed : Bool
  details : Option String
deriving DecidableEq

/-- Source: `VALIDATION_THRESHOLDS.SAFE_RESIZE_LIMIT`. -/
def SAFE_RESIZE_LIMIT : ℚ := 20

/-- Source: `VALIDATION_THRESHOLDS.WARNING_RESIZE_LIMIT`. -/
def WARNING_RESIZE_LIMIT : ℚ := 30

/-- Source: `VALIDATION_THRESHOLDS.CRITICAL_RESIZE_LIMIT`. -/
def CRITICAL_RESIZE_LIMIT : ℚ := 50

/-- Source: `VALIDATION_THRESHOLDS.MIN_STITCH_DENSITY`. -/
def MIN_STITCH_DENSITY : ℚ := 0.2

/-- Source: `VALIDATION_THRESHOLDS.OPTIMAL_DENSITY_MIN`. -/
def OPTIMAL_DENSITY_MIN : ℚ := 0.4

/-- Source: `VALIDATION_THRESHOLDS.OPTIMAL_DENSITY_MAX`. -/
def OPTIMAL_DENSITY_MAX : ℚ := 0.45

/-- Source: `VALIDATION_THRESHOLDS.MAX_STITCH_DENSITY`. -/
def MAX_STITCH_DENSITY : ℚ := 1

/-- Validate a resize percentage (source: `validateResizePercentage`).  The
numeric interpolations inside the user-facing messages are elided; levels,
`canProceed`, and branch structure follow the source exactly. -/
def validateResizePercentage (originalSize newSize : ℚ) : ValidationResult :=
  let percentChange := |calculateResizePercentage originalSize newSize|
  if percentChange ≤ SAFE_RESIZE_LIMIT then
    ⟨.safe, "Resize is within safe limits", true, none⟩
  else if percentChange ≤ WARNING_RESIZE_LIMIT then
    ⟨.warning, "Resize may affect quality", true,
      some "This resize is outside the recommended safe range but should still produce acceptable results for most designs."⟩
  else if percentChange ≤ CRITICAL_RESIZE_LIMIT then
    ⟨.danger, "Resize is significant and may cause problems", true,
      some "At this scale, you may experience quality issues. Consider having the design professionally re-digitized."⟩
  else
    ⟨.critical, "Resize is too extreme", false,
      some "This resize is far outside safe limits. The result will likely be unusable. Professional re-digitizing is strongly recommended."⟩

/-- Validate a stitch density (source: `validateStitchDensity`). -/
def validateStitchDensity (densityMm : ℚ) : ValidationResult :=
  if densityMm < MIN_STITCH_DENSITY then
    ⟨.critical, "Stitch density is too dense", false,
      some "Stitches are too close together. This can break needles, damage fabric, and cause thread bunching."⟩
  else if densityMm < OPTIMAL_DENSITY_MIN then
    ⟨.warning, "Stitch density is denser than optimal", true,
      some "This density is higher than recommended but may work depending on fabric and thread type."⟩
  else if densityMm ≤ OPTIMAL_DENSITY_MAX then
    ⟨.safe, "Stitch density is optimal", true, none⟩
  else if densityMm ≤ MAX_STITCH_DENSITY then
    ⟨.warning, "Stitch density is sparser than optimal", true,
      some "This density is lower than recommended. The design may look sparse or have poor coverage."⟩
  else
    ⟨.danger, "Stitch density is too sparse", true,
      some "Stitches are too far apart. The design will have poor coverage and look unprofessional."⟩

/-- Validate hoop dimensions (source: `validateDimensions`). -/
def validateDimensions (width height : ℚ) (machineProfile : MachineProfile) :
    ValidationResult :=
  if width > machineProfile.maxHoopWidthMm then
    ⟨.critical, "Width exceeds machine maximum", false,
      some "The design is too wide for the hoop."⟩
  else if height > machineProfile.maxHoopHeightMm then
    ⟨.critical, "Height exceeds machine maximum", false,
      some "The design is too tall for the hoop."⟩
  else if machineProfile.maxHoopWidthMm - width < 5 ∨
      machineProfile.maxHoopHeightMm - height < 5 then
    ⟨.warning, "Design is close to hoop limits", true,
      some "Leaving at least 5mm margin around the design helps with hooping."⟩
  else
    ⟨.safe, "Dimensions fit within hoop", true, none⟩

/-- Validate stitch lengths (source: `validateStitchLength`). -/
def validateStitchLength (minLength maxLength : ℚ)
    (machineProfile : MachineProfile) : ValidationResult :=
  if maxLength > machineProfile.maxStitchLengthMm then
    ⟨.danger, "Maximum stitch length exceeds machine limit", true,
      some "Some stitches are longer than recommended."⟩
  else if minLength < machineProfile.minStitchLengthMm then
    ⟨.warning, "Minimum stitch length is below machine recommendation", true,
      some "Some stitches are very short."⟩
  else
    ⟨.safe, "Stitch lengths are within the acceptable range", true, none⟩

/-- Input record of `validateAll` (source: the parameter object). -/
structure ValidateAllParams where
  originalWidth : ℚ
  originalHeight : ℚ
  newWidth : ℚ
  newHeight : ℚ
  newDensityMm : Option ℚ
  minStitchLength : Option ℚ
  maxStitchLength : Option ℚ
  machineProfile : MachineProfile
deriving DecidableEq

/-- Outcome of `validateAll`. -/
structure ValidateAllOutcome where
  canProceed : Bool
  results : List ValidationResult
deriving DecidableEq

/-- Run all validations in the source's fixed order (source: `validateAll`). -/
def validateAll (params : ValidateAllParams) : ValidateAllOutcome :=
  let results :=
    [validateResizePercentage params.originalWidth params.newWidth,
     validateResizePercentage params.originalHeight params.newHeight]
    ++ (match params.newDensityMm with
        | some d => [validateStitchDensity d]
        | none => [])
    ++ [validateDimensions params.newWidth params.newHeight params.machineProfile]
    ++ (match params.minStitchLength, params.maxStitchLength with
        | some mn, some mx => [validateStitchLength mn mx params.machineProfile]
        | _, _ => [])
  ⟨results.all (fun r => r.canProceed), results⟩

/-- Density metrics (source: `DensityMetrics`). -/
structure DensityMetrics where
  averageDensityMm : ℚ
  stitchesPerMm2 : ℚ
  minStitchLengthMm : ℚ
  maxStitchLengthMm : ℚ
  totalStitches : ℕ
deriving DecidableEq

/-- Accumulator of the consecutive-pair loop in `calculateDensityMetrics`.
JavaScript's `±Infinity` seeds for min/max are modelled with `Option`. -/
structure DistAcc where
  total : ℚ
  count : ℕ
  minL : Option ℚ
  maxL : Option ℚ
deriving DecidableEq

/-- One step of the pair loop of `calculateDensityMetrics`: pairs whose later
stitch is `jump`, `trim` or `stop` are skipped. -/
def densityPairStep (sqrtq : ℚ → ℚ) (acc : DistAcc) (pr : Stitch × Stitch) :
    DistAcc :=
  if pr.2.type = .jump ∨ pr.2.type = .trim ∨ pr.2.type = .stop then acc
  else
    let d := distance sqrtq pr.1.position pr.2.position
    ⟨acc.total + d, acc.count + 1,
     some (match acc.minL with | none => d | some m => min m d),
     some (match acc.maxL with | none => d | some m => max m d)⟩

/-- Consecutive pairs of a list (`l[i-1], l[i]` for `i ≥ 1`). -/
def consecPairs {α : Type} (l : List α) : List (α × α) :=
  l.zip l.tail

/-- Stitch-density metrics (source: `calculateDensityMetrics`). -/
def calculateDensityMetrics (sqrtq : ℚ → ℚ) (colorBlocks : List ColorBlock) :
    DensityMetrics :=
  let all := allStitches colorBlocks
  if all.length < 2 then ⟨0, 0, 0, 0, all.length⟩
  else
    let acc := colorBlocks.foldl
      (fun a b => (consecPairs b.stitches).foldl (densityPairStep sqrtq) a)
      ⟨0, 0, none, none⟩
    if acc.count = 0 then ⟨0, 0, 0, 0, all.length⟩
    else
      let bounds := calculateBoundingBox all
      let areaMm2 := bounds.width * bounds.height
      ⟨acc.total / (acc.count : ℚ),
       if areaMm2 > 0 then (all.length : ℚ) / areaMm2 else 0,
       acc.minL.getD 0, acc.maxL.getD 0, all.length⟩

/-- Parameters of `calculateScaleFactor` (source: the options object
of `calculateScaleFactor`; the source's `preserveAspectRatio` field is named
`preserveAspect` here for lexical reasons, with identical meaning). -/
structure ScaleParams where
  targetWidth : Option ℚ
  targetHeight : Option ℚ
  scalePercent : Option ℚ
  preserveAspect : Bool
deriving DecidableEq

/-- Return record of `calculateScaleFactor`. -/
structure ScaleResult where
  scale : ℚ
  newWidth : ℚ
  newHeight : ℚ
deriving DecidableEq

/-- Scale-factor computation (source: `calculateScaleFactor`).  The source
throws when no sizing parameter is given; that is modelled by `none`. -/
def calculateScaleFactor (originalWidth originalHeight : ℚ)
    (params : ScaleParams) : Option ScaleResult :=
  match params.scalePercent with
  | some sp =>
    let scale := sp / 100
    some ⟨scale, originalWidth * scale, originalHeight * scale⟩
  | none =>
    match params.targetWidth, params.targetHeight with
    | some tw, some th =>
      let scaleW := tw / originalWidth
      let scaleH := th / originalHeight
      if params.preserveAspect then
        let scale := min scaleW scaleH
        some ⟨scale, originalWidth * scale, originalHeight * scale⟩
      else
        some ⟨(scaleW + scaleH) / 2, tw, th⟩
    | some tw, none =>
      let scale := tw / originalWidth
      some ⟨scale, tw, originalHeight * scale⟩
    | none, some th =>
      let scale := th / originalHeight
      some ⟨scale, originalWidth * scale, th⟩
    | none, none => none

/-- Engine configuration (source: `SimpleSkaleConfig`).  The source's
`machineProfile` slot is overwritten with the design's profile at the start of
`applyScaling`, so calls always read the design's profile; the slot is
therefore not carried here. -/
structure SimpleSkaleConfig where
  targetDensityMm : ℚ
  safeMode : Bool
deriving DecidableEq

/-- Result of a scaling operation (source: `SimpleSkaleResult`). -/
structure SimpleSkaleResult where
  success : Bool
  design : Option DesignDocument
  validationResults : List ValidationResult
  beforeMetrics : DensityMetrics
  afterMetrics : DensityMetrics
  error : Option String
deriving DecidableEq

/-- Source: `isSpecialStitch` in `simpleskale.ts`. -/
def isSpecialStitch : StitchType → Bool
  | .trim => true
  | .stop => true
  | .end_ => true
  | .jump => true
  | _ => false

/-- Scale one stitch's coordinates (the body of the inner map of
`scaleCoordinates`). -/
def scaleStitch (scale : ℚ) (s : Stitch) : Stitch :=
  { s with position := ⟨s.position.x * scale, s.position.y * scale⟩ }

/-- Scale one block's stitches (the body of the outer map of
`scaleCoordinates`). -/
def scaleBlock (scale : ℚ) (b : ColorBlock) : ColorBlock :=
  { b with stitches := b.stitches.map (scaleStitch scale) }

/-- Source: `scaleCoordinates` in `simpleskale.ts`. -/
def scaleCoordinates (colorBlocks : List ColorBlock) (scale : ℚ) :
    List ColorBlock :=
  colorBlocks.map (scaleBlock scale)

/-- The stitches inserted between `cur` and `next` by upscale interpolation
(the body of the inner loop of `addInterpolatedStitches`):
`floor (dist / targetDensityUnits) - 1` evenly spaced points, each inheriting
`cur`'s type and color, inserted only when `dist > 1.5 × targetDensityUnits`. -/
def interpolatedBetween (sqrtq : ℚ → ℚ) (tUnits : ℚ) (cur next : Stitch) :
    List Stitch :=
  let dist := distance sqrtq cur.position next.position
  if dist > tUnits * 1.5 then
    let num := ratFloor (dist / tUnits)
    (List.range (num.toNat - 1)).map fun k =>
      let t := ((k + 1 : ℕ) : ℚ) / (num : ℚ)
      ⟨interpolatePoint cur.position next.position t, cur.type, cur.colorIndex⟩
  else []

/-- The pair walk of `addInterpolatedStitches`: every source stitch is kept,
interpolation is skipped after a special stitch, and the final stitch is
always appended. -/
def interpGo (sqrtq : ℚ → ℚ) (tUnits : ℚ) : Stitch → List Stitch → List Stitch
  | cur, [] => [cur]
  | cur, next :: rest =>
    if isSpecialStitch cur.type then cur :: interpGo sqrtq tUnits next rest
    else (cur :: interpolatedBetween sqrtq tUnits cur next)
      ++ interpGo sqrtq tUnits next rest

/-- One block of `addInterpolatedStitches` (the body of its map): blocks with
fewer than 2 stitches are returned unchanged. -/
def interpolateBlock (sqrtq : ℚ → ℚ) (tUnits : ℚ) (b : ColorBlock) :
    ColorBlock :=
  if b.stitches.length < 2 then b
  else { b with stitches :=
    match b.stitches with
    | [] => []
    | s :: rest => interpGo sqrtq tUnits s rest }

/-- Source: `addInterpolatedStitches` in `simpleskale.ts` (upscaling);
`targetDensityUnits = targetDensityMm * 10`. -/
def addInterpolatedStitches (sqrtq : ℚ → ℚ) (colorBlocks : List ColorBlock)
    (targetDensityMm : ℚ) : List ColorBlock :=
  colorBlocks.map (interpolateBlock sqrtq (targetDensityMm * 10))

/-- The streaming filter of `removeExcessStitches`: special stitches are kept
unconditionally, others only when at least `minD` away from the last KEPT
stitch. -/
def removeGo (sqrtq : ℚ → ℚ) (minD : ℚ) : Stitch → List Stitch → List Stitch
  | _, [] => []
  | lastKept, cur :: rest =>
    if isSpecialStitch cur.type then cur :: removeGo sqrtq minD cur rest
    else if distance sqrtq lastKept.position cur.position ≥ minD then
      cur :: removeGo sqrtq minD cur rest
    else removeGo sqrtq minD lastKept rest

/-- One block of `removeExcessStitches` (the body of its map): the first
stitch is always kept, blocks with fewer than 2 stitches are unchanged. -/
def reduceBlock (sqrtq : ℚ → ℚ) (minD : ℚ) (b : ColorBlock) : ColorBlock :=
  if b.stitches.length < 2 then b
  else { b with stitches :=
    match b.stitches with
    | [] => []
    | s :: rest => s :: removeGo sqrtq minD s rest }

/-- Source: `removeExcessStitches` in `simpleskale.ts` (downscaling);
`minDistance = targetDensityUnits * 0.7 = targetDensityMm * 10 * 0.7`. -/
def removeExcessStitches (sqrtq : ℚ → ℚ) (colorBlocks : List ColorBlock)
    (targetDensityMm : ℚ) : List ColorBlock :=
  colorBlocks.map (reduceBlock sqrtq (targetDensityMm * 10 * 0.7))

/-- Steps 1-2 of `applyScaling` after the gate: scale all coordinates, then
resample by density (strict upscale interpolates, strict downscale reduces,
scale exactly 1 leaves the scaled blocks as they are). -/
def finalBlocksOf (sqrtq : ℚ → ℚ) (targetDensityMm : ℚ)
    (colorBlocks : List ColorBlock) (scale : ℚ) : List ColorBlock :=
  let scaledBlocks := scaleCoordinates colorBlocks scale
  if scale > 1 then addInterpolatedStitches sqrtq scaledBlocks targetDensityMm
  else if scale < 1 then removeExcessStitches sqrtq scaledBlocks targetDensityMm
  else scaledBlocks

/-- The validation run inside `applyScaling` (its `validateAll` call, with the
estimated post-scale density and linearly scaled stitch lengths). -/
def scalingValidationOutcome (sqrtq : ℚ → ℚ) (design : DesignDocument)
    (sf : ScaleResult) : ValidateAllOutcome :=
  let beforeMetrics := calculateDensityMetrics sqrtq design.colorBlocks
  validateAll
    { originalWidth := design.metadata.originalWidthMm
      originalHeight := design.metadata.originalHeightMm
      newWidth := sf.newWidth
      newHeight := sf.newHeight
      newDensityMm := some (beforeMetrics.averageDensityMm * sf.scale)
      minStitchLength := some (beforeMetrics.minStitchLengthMm * sf.scale)
      maxStitchLength := some (beforeMetrics.maxStitchLengthMm * sf.scale)
      machineProfile := design.machineProfile }

/-- Source: `applyScaling` in `simpleskale.ts`.  `newId` stands for
`crypto.randomUUID()` and `now` for `new Date()`; the `none` result models the
exception propagated from `calculateScaleFactor` when no sizing parameter is
given. -/
def applyScaling (sqrtq : ℚ → ℚ) (config : SimpleSkaleConfig)
    (design : DesignDocument) (params : ScaleParams) (newId : String)
    (now : ℕ) : Option SimpleSkaleResult :=
  match calculateScaleFactor design.metadata.originalWidthMm
      design.metadata.originalHeightMm params with
  | none => none
  | some sf =>
    let beforeMetrics := calculateDensityMetrics sqrtq design.colorBlocks
    let v := scalingValidationOutcome sqrtq design sf
    if config.safeMode && !v.canProceed then
      some ⟨false, none, v.results, beforeMetrics, beforeMetrics,
        some "Scaling operation blocked by safe mode. Validation failed."⟩
    else
      let finalBlocks := finalBlocksOf sqrtq config.targetDensityMm
        design.colorBlocks sf.scale
      let afterMetrics := calculateDensityMetrics sqrtq finalBlocks
      let scaledDesign : DesignDocument :=
        { design with
          id := newId
          colorBlocks := finalBlocks
          metadata :=
            { design.metadata with
              scaleFactor := sf.scale
              currentStitchCount := afterMetrics.totalStitches
              modifiedAt := some now } }
      some ⟨true, some scaledDesign, v.results, beforeMetrics, afterMetrics,
        none⟩

/-- The document carried by a successful scaling result. -/
def rescaledDesign (o : Option SimpleSkaleResult) : Option DesignDocument :=
  o.bind fun r => r.design

/-- Number of special (`jump/trim/stop/end`) stitches in a block. -/
def specialCount (b : ColorBlock) : ℕ :=
  b.stitches.countP fun s => isSpecialStitch s.type

/-- Source: `getStitchFlags` in the DST writer. -/
def getStitchFlags : StitchType → ℕ
  | .jump => 0x83
  | .trim => 0xc3
  | .stop => 0xf3
  | _ => 0x03

/-- Source: `encodeDSTDelta` in the DST writer. -/
def encodeDSTDelta (value : ℕ) : ℕ :=
  value &&& 0x03

/-- Source: `writeDSTRecord` in the DST writer — one 3-byte record. -/
def writeDSTRecord (dx dy : ℤ) (flags : ℕ) : List ℕ :=
  let b2x : ℕ :=
    if dx > 0 then (if dx > 80 then 0x04 else 0)
    else if dx < 0 then (if dx < -80 then 0x08 else 0)
    else 0
  let b3x : ℕ :=
    if dx > 0 then 0x04 ||| (if dx > 40 then 0x08 else 0)
    else if dx < 0 then 0x08 ||| (if dx < -40 then 0x04 else 0)
    else 0
  let b2y : ℕ :=
    if dy > 0 then (if dy > 80 then 0x20 else 0)
    else if dy < 0 then (if dy < -80 then 0x10 else 0)
    else 0
  let b3y : ℕ :=
    if dy > 0 then 0x20 ||| (if dy > 40 then 0x10 else 0)
    else if dy < 0 then 0x10 ||| (if dy < -40 then 0x20 else 0)
    else 0
  let byte1 := encodeDSTDelta (dx.natAbs % 3)
  let byte2 := (b2x ||| b2y) ||| encodeDSTDelta (dy.natAbs % 3)
  let byte3 := (flags ||| b3x) ||| b3y
  [byte1, byte2, byte3]

/-- The clamp `Math.max(-121, Math.min(121, v))` used by `writeDSTJump`. -/
def clamp121 (v : ℤ) : ℤ :=
  if 121 < v then 121 else if v < -121 then -121 else v

/-- The `while` loop of `writeDSTJump`, with an explicit fuel so the
recursion is structural; each iteration shrinks `|dx| + |dy|` by at least 1,
so `|dx| + |dy|` fuel always suffices and the fuel never runs out. -/
def writeDSTJumpGo : ℕ → ℤ → ℤ → List ℕ
  | 0, _, _ => []
  | fuel + 1, dx, dy =>
    if 121 < dx.natAbs ∨ 121 < dy.natAbs then
      writeDSTRecord (clamp121 dx) (clamp121 dy) 0x83
        ++ writeDSTJumpGo fuel (dx - clamp121 dx) (dy - clamp121 dy)
    else if dx ≠ 0 ∨ dy ≠ 0 then writeDSTRecord dx dy 0x83
    else []

/-- Source: `writeDSTJump` in the DST writer — splits an oversized movement
into clamped records, every one with the jump flag `0x83`, including the
final nonzero residual. -/
def writeDSTJump (dx dy : ℤ) : List ℕ :=
  writeDSTJumpGo (dx.natAbs + dy.natAbs) dx dy

/-- Per-stitch emission of `writeDSTStitches`: rounds the position, takes the
delta from the last emitted position, and dispatches between the jump split
and a single type-flagged record. -/
def writeStitchBytes (lastX lastY : ℤ) (s : Stitch) : List ℕ × ℤ × ℤ :=
  let x := jsRound s.position.x
  let y := jsRound s.position.y
  let dx := x - lastX
  let dy := y - lastY
  (if 121 < dx.natAbs ∨ 121 < dy.natAbs then writeDSTJump dx dy
   else writeDSTRecord dx dy (getStitchFlags s.type), x, y)

/-- The per-block stitch loop of `writeDSTStitches`, threading the last
emitted position. -/
def writeBlockLoop : ℤ → ℤ → List Stitch → List ℕ × ℤ × ℤ
  | lx, ly, [] => ([], lx, ly)
  | lx, ly, s :: rest =>
    let r := writeStitchBytes lx ly s
    let r2 := writeBlockLoop r.2.1 r.2.2 rest
    (r.1 ++ r2.1, r2.2)

/-- The block loop of `writeDSTStitches`: a literal color-change record
`0x00 0x00 0xC3` before every block except the first. -/
def writeBlocksLoop : ℤ → ℤ → Bool → List ColorBlock → List ℕ
  | _, _, _, [] => []
  | lx, ly, first, b :: rest =>
    let cc : List ℕ := if first then [] else [0x00, 0x00, 0xc3]
    let r := writeBlockLoop lx ly b.stitches
    cc ++ r.1 ++ writeBlocksLoop r.2.1 r.2.2 false rest

/-- Source: `writeDSTStitches` in the DST writer (stitch stream only; the
512-byte text header written before it and the end-of-file sentinel
`0x00 0x00 0xF3` appended after it do not carry stitch data). -/
def writeDSTStitches (colorBlocks : List ColorBlock) : List ℕ :=
  writeBlocksLoop 0 0 true colorBlocks

/-- Decoded X movement of a DST record (source: the `dx` accumulation in
`parseDSTStitches`, applied in the source's exact order: byte-1 contributions,
byte-1 sign, byte-2 contributions, byte-2 sign). -/
def dstDecodeDx (b1 b2 : ℕ) : ℚ :=
  let d1 : ℚ := (if b1 &&& 0x01 ≠ 0 then 1 else 0)
    + (if b1 &&& 0x02 ≠ 0 then 9 else 0)
    + (if b1 &&& 0x04 ≠ 0 then 3 else 0)
  let d2 := if b1 &&& 0x80 ≠ 0 then -d1 else d1
  let d3 := d2 + (if b2 &&& 0x01 ≠ 0 then 81 else 0)
    + (if b2 &&& 0x02 ≠ 0 then 27 else 0)
    + (if b2 &&& 0x04 ≠ 0 then 243 else 0)
  if b2 &&& 0x80 ≠ 0 then -d3 else d3

/-- Decoded Y movement of a DST record (source: the `dy` accumulation in
`parseDSTStitches`). -/
def dstDecodeDy (b1 b2 : ℕ) : ℚ :=
  let d1 : ℚ := (if b1 &&& 0x08 ≠ 0 then 1 else 0)
    + (if b1 &&& 0x10 ≠ 0 then 9 else 0)
    + (if b1 &&& 0x20 ≠ 0 then 3 else 0)
  let d2 := if b1 &&& 0x40 ≠ 0 then -d1 else d1
  let d3 := d2 + (if b2 &&& 0x08 ≠ 0 then 81 else 0)
    + (if b2 &&& 0x10 ≠ 0 then 27 else 0)
    + (if b2 &&& 0x20 ≠ 0 then 243 else 0)
  if b2 &&& 0x40 ≠ 0 then -d3 else d3

/-- Running state of the DST stitch loop (source: the local variables of
`parseDSTStitches`). -/
structure DSTState where
  blocks : List ColorBlock
  cur : List Stitch
  curColor : ℤ
  x : ℚ
  y : ℚ
  minX : ℚ
  minY : ℚ
  maxX : ℚ
  maxY : ℚ
deriving DecidableEq

/-- Return record of the stitch parsers: the color blocks and the tracked
bounds. -/
structure StitchParseOut where
  colorBlocks : List ColorBlock
  bounds : BoundingBox
deriving DecidableEq

/-- End of the DST stitch loop: push the final block if non-empty and package
the tracked bounds (source: the tail of `parseDSTStitches`). -/
def dstFinalize (st : DSTState) : StitchParseOut :=
  { colorBlocks :=
      st.blocks ++ (if st.cur.isEmpty then [] else [⟨st.curColor, st.cur⟩])
    bounds := ⟨st.minX, st.minY, st.maxX, st.maxY,
      st.maxX - st.minX, st.maxY - st.minY⟩ }

/-- The 3-byte-record loop of `parseDSTStitches`.  `none` models the
`OutOfBounds` exception thrown when 1 or 2 bytes remain.  Note that a record
with `byte3 = 0xF3` (and not the all-of `0x00 0x00 0xF3` sentinel) satisfies
the color-change test `byte3 & 0x40`, which the source checks first, so the
`isEnd` branch below is reachable only through the same dead path as in the
source. -/
def parseDSTGo : List ℕ → DSTState → Option StitchParseOut
  | [], st => some (dstFinalize st)
  | b1 :: b2 :: b3 :: rest, st =>
    if b1 = 0x00 ∧ b2 = 0x00 ∧ b3 = 0xf3 then some (dstFinalize st)
    else
      let isColorChange := b3 &&& 0x80 ≠ 0 ∧ b3 &&& 0x40 ≠ 0
      let isEnd := b3 &&& 0x80 ≠ 0 ∧ b3 = 0xf3
      let dx := dstDecodeDx b1 b2
      let dy := dstDecodeDy b1 b2
      let x := st.x + dx
      let y := st.y + dy
      let st1 : DSTState :=
        { st with
          x := x
          y := y
          minX := min st.minX x
          minY := min st.minY y
          maxX := max st.maxX x
          maxY := max st.maxY y }
      if isColorChange then
        parseDSTGo rest
          { st1 with
            blocks := st1.blocks
              ++ (if st1.cur.isEmpty then [] else [⟨st1.curColor, st1.cur⟩])
            curColor := st1.curColor + 1
            cur := [⟨⟨x, y⟩, .stop, st1.curColor + 1⟩] }
      else if isEnd then
        some (dstFinalize
          { st1 with cur := st1.cur ++ [⟨⟨x, y⟩, .end_, st1.curColor⟩] })
      else
        let stype : StitchType := if 100 < |dx| ∨ 100 < |dy| then .jump else .run
        if dx ≠ 0 ∨ dy ≠ 0 then
          parseDSTGo rest
            { st1 with cur := st1.cur ++ [⟨⟨x, y⟩, stype, st1.curColor⟩] }
        else parseDSTGo rest st1
  | _, _ => none

/-- Initial state of `parseDSTStitches`: position and all four bounds start
at the origin. -/
def dstInitState : DSTState :=
  ⟨[], [], 0, 0, 0, 0, 0, 0, 0⟩

/-- Source: `parseDSTStitches` in the DST parser (the stitch records that
follow the 512-byte header). -/
def parseDSTStitches (bytes : List ℕ) : Option StitchParseOut :=
  parseDSTGo bytes dstInitState

/-- Decoded movement of one PEC byte (source: the X/Y decode in
`parseStitchData` of the PES parser): low nibble magnitude, `0x80` sign,
`0x40` multiplies by 16. -/
def pesDecode (b : ℕ) : ℚ :=
  let d : ℚ := if b &&& 0x80 ≠ 0 then -((b &&& 0x0f : ℕ) : ℚ)
    else ((b &&& 0x0f : ℕ) : ℚ)
  if b &&& 0x40 ≠ 0 then d * 16 else d

/-- Running state of the PES/PEC stitch loop (source: the local variables of
`parseStitchData`). -/
structure PESState where
  blocks : List ColorBlock
  cur : List Stitch
  curColorIndex : ℤ
  x : ℚ
  y : ℚ
  minX : ℚ
  minY : ℚ
  maxX : ℚ
  maxY : ℚ
deriving DecidableEq

/-- End of the PES stitch loop (source: the tail of `parseStitchData`). -/
def pesFinalize (colorCount : ℤ) (st : PESState) : StitchParseOut :=
  { colorBlocks :=
      st.blocks
        ++ (if st.cur.isEmpty then []
            else [⟨st.curColorIndex % colorCount, st.cur⟩])
    bounds := ⟨st.minX, st.minY, st.maxX, st.maxY,
      st.maxX - st.minX, st.maxY - st.minY⟩ }

/-- The 2-byte-record loop of `parseStitchData` in the PES parser.  `none`
models the exception thrown when a single byte remains.  (`parsePES` always
calls this with `colorCount ≥ 1`.) -/
def parsePESGo (colorCount : ℤ) : List ℕ → PESState → Option StitchParseOut
  | [], st => some (pesFinalize colorCount st)
  | b1 :: b2 :: rest, st =>
    if b1 = 0xff ∧ b2 = 0x00 then some (pesFinalize colorCount st)
    else if b1 = 0xfe ∧ b2 = 0xb0 then
      parsePESGo colorCount rest
        { st with
          blocks := st.blocks
            ++ (if st.cur.isEmpty then []
                else [⟨st.curColorIndex % colorCount, st.cur⟩])
          curColorIndex := st.curColorIndex + 1
          cur := [⟨⟨st.x, st.y⟩, .stop, (st.curColorIndex + 1) % colorCount⟩] }
    else
      let dx := pesDecode b1
      let dy := pesDecode b2
      let x := st.x + dx
      let y := st.y + dy
      let stype : StitchType :=
        if b1 &&& 0x20 ≠ 0 ∨ b2 &&& 0x20 ≠ 0 then .jump else .run
      parsePESGo colorCount rest
        { st with
          x := x
          y := y
          minX := min st.minX x
          minY := min st.minY y
          maxX := max st.maxX x
          maxY := max st.maxY y
          cur := st.cur ++ [⟨⟨x, y⟩, stype, st.curColorIndex % colorCount⟩] }
  | _, _ => none

/-- Initial state of `parseStitchData`: position and bounds start at the
origin. -/
def pesInitState : PESState :=
  ⟨[], [], 0, 0, 0, 0, 0, 0, 0⟩

/-- Source: `parseStitchData` in the PES parser (the PEC stitch stream). -/
def parsePESStitchData (colorCount : ℤ) (bytes : List ℕ) :
    Option StitchParseOut :=
  parsePESGo colorCount bytes pesInitState

/-- Shorthand for a run stitch of color 0 at `(x, y)` (test fixture). -/
def stR (x y : ℚ) : Stitch :=
  ⟨⟨x, y⟩, .run, 0⟩

/-- Scaling parameters giving only `scalePercent` (fixture). -/
def scalePercentParams (q : ℚ) : ScaleParams :=
  ⟨none, none, some q, true⟩

/-- Engine configuration with safe mode on and the default target density
`OPTIMAL_DENSITY.TARGET = 0.425` (fixture matching the source defaults). -/
def cfgSafe : SimpleSkaleConfig :=
  ⟨0.425, true⟩

/-- Engine configuration with safe mode off (fixture). -/
def cfgFree : SimpleSkaleConfig :=
  ⟨0.425, false⟩

/-- A 100×100 mm two-stitch test document (fixture). -/
def doc1 : DesignDocument :=
  ⟨"d1", "Test", "DST", [⟨0, [stR 0 0, stR 10 0]⟩], [], BROTHER_PP1_PROFILE,
   ⟨100, 100, 1, 2, 2, none, none, none⟩⟩

/-- `doc1` after a previous rescale: `metadata.scaleFactor = 2` (fixture). -/
def docScaled2 : DesignDocument :=
  { doc1 with metadata := ⟨100, 100, 2, 2, 2, none, none, none⟩ }

/-- A document with a single stitch (fixture). -/
def docOne : DesignDocument :=
  ⟨"d1", "Test", "DST", [⟨0, [stR 0 0]⟩], [], BROTHER_PP1_PROFILE,
   ⟨100, 100, 1, 1, 1, none, none, none⟩⟩

/-- A document whose block carries a special (`trim`) stitch between two run
stitches (fixture). -/
def docSpec : DesignDocument :=
  ⟨"d1", "Test", "DST",
   [⟨0, [stR 0 0, ⟨⟨50, 0⟩, .trim, 0⟩, stR 100 0]⟩], [], BROTHER_PP1_PROFILE,
   ⟨100, 100, 1, 3, 3, none, none, none⟩⟩

/-- Expected output of rescaling `docScaled2` by 50% (fixture). -/
def docScaled2At50 : DesignDocument :=
  ⟨"n", "Test", "DST", [⟨0, [stR 0 0, stR 5 0]⟩], [], BROTHER_PP1_PROFILE,
   ⟨100, 100, 1/2, 2, 2, none, some 0, none⟩⟩

/-- Expected output of rescaling `docSpec` by 50% (fixture). -/
def docSpecAt50 : DesignDocument :=
  ⟨"n", "Test", "DST",
   [⟨0, [stR 0 0, ⟨⟨25, 0⟩, .trim, 0⟩, stR 50 0]⟩], [], BROTHER_PP1_PROFILE,
   ⟨100, 100, 1/2, 3, 3, none, some 0, none⟩⟩

/-- Expected output of rescaling `doc1` by 100% (fixture). -/
def doc1At100 : DesignDocument :=
  ⟨"n", "Test", "DST", [⟨0, [stR 0 0, stR 10 0]⟩], [], BROTHER_PP1_PROFILE,
   ⟨100, 100, 1, 2, 2, none, some 0, none⟩⟩

/-- X coordinates of every stitch of a block list, in order. -/
def blocksXs (bs : List ColorBlock) : List ℚ :=
  (allStitches bs).map fun s => s.position.x

/-- Y coordinates of every stitch of a block list, in order. -/
def blocksYs (bs : List ColorBlock) : List ℚ :=
  (allStitches bs).map fun s => s.position.y

/-- X coordinates tracked so far by the DST loop (finished blocks, then the
open block). -/
def dstXs (st : DSTState) : List ℚ :=
  blocksXs st.blocks ++ st.cur.map fun s => s.position.x

/-- Y coordinates tracked so far by the DST loop. -/
def dstYs (st : DSTState) : List ℚ :=
  blocksYs st.blocks ++ st.cur.map fun s => s.position.y

/-- Loop invariant of the DST stitch loop: each tracked bound is the fold of
`min`/`max` seeded at the origin over the stitches emitted so far, and the
current position lies inside the tracked bounds. -/
def dstInv (st : DSTState) : Prop :=
  st.minX = (dstXs st).foldl min 0 ∧ st.maxX = (dstXs st).foldl max 0 ∧
  st.minY = (dstYs st).foldl min 0 ∧ st.maxY = (dstYs st).foldl max 0 ∧
  st.minX ≤ st.x ∧ st.x ≤ st.maxX ∧ st.minY ≤ st.y ∧ st.y ≤ st.maxY

/-- X coordinates tracked so far by the PES loop. -/
def pesXs (st : PESState) : List ℚ :=
  blocksXs st.blocks ++ st.cur.map fun s => s.position.x

/-- Y coordinates tracked so far by the PES loop. -/
def pesYs (st : PESState) : List ℚ :=
  blocksYs st.blocks ++ st.cur.map fun s => s.position.y

/-- Loop invariant of the PES stitch loop. -/
def pesInv (st : PESState) : Prop :=
  st.minX = (pesXs st).foldl min 0 ∧ st.maxX = (pesXs st).foldl max 0 ∧
  st.minY = (pesYs st).foldl min 0 ∧ st.maxY = (pesYs st).foldl max 0 ∧
  st.minX ≤ st.x ∧ st.x ≤ st.maxX ∧ st.minY ≤ st.y ∧ st.y ≤ st.maxY

/-- The origin-anchored bound equalities asserted for a parse result: every
bound is the `min`/`max` fold seeded at 0 over the output stitch coordinates,
and width/height are the differences of those folds. -/
def boundsAnchored (r : StitchParseOut) : Prop :=
  r.bounds.minX = (blocksXs r.colorBlocks).foldl min 0 ∧
  r.bounds.maxX = (blocksXs r.colorBlocks).foldl max 0 ∧
  r.bounds.minY = (blocksYs r.colorBlocks).foldl min 0 ∧
  r.bounds.maxY = (blocksYs r.colorBlocks).foldl max 0 ∧
  r.bounds.width =
    (blocksXs r.colorBlocks).foldl max 0 - (blocksXs r.colorBlocks).foldl min 0 ∧
  r.bounds.height =
    (blocksYs r.colorBlocks).foldl max 0 - (blocksYs r.colorBlocks).foldl min 0

/-- `calculateDensityMetrics` reports the exact number of stitches in every
branch. -/
theorem calculateDensityMetrics_totalStitches (sqrtq : ℚ → ℚ)
    (colorBlocks : List ColorBlock) :
    (calculateDensityMetrics sqrtq colorBlocks).totalStitches =
      (allStitches colorBlocks).length := by
  by_cases h1 : (allStitches colorBlocks).length < 2
  · simp [calculateDensityMetrics, h1]
  · simp only [calculateDensityMetrics, h1, if_false]
    split <;> rfl

/-- C9: the validation threshold boundaries behave exactly as the spec states:
`validateResizePercentage 100 120` is `Safe` (the 20% boundary is inclusive),
`validateResizePercentage 100 120.001` is `Warning`,
`validateStitchDensity 0.45` is `Safe`, and
`validateStitchDensity 0.450001` is `Warning`. -/
theorem validator_threshold_boundaries :
    (validateResizePercentage 100 120).level = .safe ∧
    (validateResizePercentage 100 120.001).level = .warning ∧
    (validateStitchDensity 0.45).level = .safe ∧
    (validateStitchDensity 0.450001).level = .warning := by
  refine ⟨?_, ?_, ?_, ?_⟩ <;> decide

/-- C1: the DST codec does NOT round-trip.  `writeDSTRecord` encodes only
`|delta| mod 3` (plus coarse `>40`/`>80` flag bits) and is not an inverse of
the parser's bit-mask decode: a document holding a single run stitch at
`(5, 0)` is written as the record `[2, 0, 7]`, which `parseDSTStitches` reads
back as a run stitch at `(9, 0)` — 4 units away, far beyond the claimed 1-unit
(0.1 mm) tolerance. -/
theorem dst_roundtrip_code_bug :
    writeDSTStitches [⟨0, [stR 5 0]⟩] = [2, 0, 7] ∧
    parseDSTStitches (writeDSTStitches [⟨0, [stR 5 0]⟩] ++ [0x00, 0x00, 0xf3]) =
      some ⟨[⟨0, [⟨⟨9, 0⟩, .run, 0⟩]⟩], ⟨0, 0, 9, 0, 9, 0⟩⟩ ∧
    ¬ |(9 : ℚ) - 5| ≤ 1 := by
  refine ⟨?_, ?_, ?_⟩ <;> decide

/-- C8 counterexample: for a run stitch whose delta (200, 0) exceeds 121, the
final residual record is emitted by `writeDSTJump` with the jump flag `0x83`
(third byte `0x8F = 143`), not with the stitch's own type-derived flag
`0x03` (which would give third byte `0x0F = 15`). -/
theorem dst_jump_residual_flag_counterexample :
    writeDSTStitches [⟨0, [stR 200 0]⟩] = [1, 4, 143, 1, 0, 143] ∧
    writeDSTRecord 79 0 (getStitchFlags .run) = [1, 0, 15] ∧
    writeDSTStitches [⟨0, [stR 200 0]⟩] ≠ [1, 4, 143] ++ [1, 0, 15] := by
  refine ⟨?_, ?_, ?_⟩ <;> decide

/-- C5: with both targets and aspect preservation, `calculateScaleFactor`
returns `scale = min (targetWidth/W, targetHeight/H)`, and the returned new
dimensions fit within both targets. -/
theorem calculateScaleFactor_aspect_fit (W H tw th : ℚ) (hW : 0 < W)
    (hH : 0 < H) (r : ScaleResult)
    (h : calculateScaleFactor W H ⟨some tw, some th, none, true⟩ = some r) :
    r.scale = min (tw / W) (th / H) ∧ r.newWidth ≤ tw ∧ r.newHeight ≤ th := by
  unfold calculateScaleFactor at h
  simp only [if_true] at h
  obtain rfl : (⟨min (tw / W) (th / H), W * min (tw / W) (th / H),
      H * min (tw / W) (th / H)⟩ : ScaleResult) = r := Option.some.inj h
  refine ⟨rfl, ?_, ?_⟩
  · have h1 : W * min (tw / W) (th / H) ≤ W * (tw / W) :=
      mul_le_mul_of_nonneg_left (min_le_left _ _) hW.le
    have h2 : W * (tw / W) = tw := by field_simp
    calc W * min (tw / W) (th / H) ≤ W * (tw / W) := h1
      _ = tw := h2
  · have h1 : H * min (tw / W) (th / H) ≤ H * (th / H) :=
      mul_le_mul_of_nonneg_left (min_le_right _ _) hH.le
    have h2 : H * (th / H) = th := by field_simp
    calc H * min (tw / W) (th / H) ≤ H * (th / H) := h1
      _ = th := h2

/-- Witness for C5 at `W = H = 10`, `targetWidth = 5`, `targetHeight = 20`. -/
theorem calculateScaleFactor_aspect_fit_witness :
    (0 : ℚ) < 10 ∧ (0 : ℚ) < 10 ∧
    calculateScaleFactor 10 10 ⟨some 5, some 20, none, true⟩ =
      some ⟨1/2, 5, 5⟩ ∧
    ((1/2 : ℚ) = min (5 / 10 : ℚ) (20 / 10) ∧ (5 : ℚ) ≤ 5 ∧ (5 : ℚ) ≤ 20) :=
  ⟨by norm_num, by norm_num, by decide,
   calculateScaleFactor_aspect_fit 10 10 5 20 (by norm_num) (by norm_num)
     ⟨1/2, 5, 5⟩ (by decide)⟩

/-- C3: with safe mode enabled, if the engine's validation run reports
`canProceed = false`, `applyScaling` returns a failure carrying the full
validation result list, no output document, and `afterMetrics` identical to
`beforeMetrics` (the metrics of the unchanged input). -/
theorem applyScaling_safeMode_gate (sqrtq : ℚ → ℚ) (config : SimpleSkaleConfig)
    (design : DesignDocument) (params : ScaleParams) (newId : String) (now : ℕ)
    (sf : ScaleResult)
    (hsafe : config.safeMode = true)
    (hsf : calculateScaleFactor design.metadata.originalWidthMm
      design.metadata.originalHeightMm params = some sf)
    (hcp : (scalingValidationOutcome sqrtq design sf).canProceed = false) :
    applyScaling sqrtq config design params newId now =
      some ⟨false, none, (scalingValidationOutcome sqrtq design sf).results,
        calculateDensityMetrics sqrtq design.colorBlocks,
        calculateDensityMetrics sqrtq design.colorBlocks,
        some "Scaling operation blocked by safe mode. Validation failed."⟩ := by
  unfold applyScaling
  rw [hsf]
  have hg : (config.safeMode &&
      !(scalingValidationOutcome sqrtq design sf).canProceed) = true := by
    rw [hsafe, hcp]; rfl
  simp only [hg, if_true]

/-- Witness for C3: `doc1` rescaled to 200% (a 100% increase, beyond the 50%
critical threshold) under safe mode is blocked. -/
theorem applyScaling_safeMode_gate_witness :
    cfgSafe.safeMode = true ∧
    calculateScaleFactor doc1.metadata.originalWidthMm
      doc1.metadata.originalHeightMm (scalePercentParams 200) =
        some ⟨2, 200, 200⟩ ∧
    (scalingValidationOutcome ratSqrt doc1 ⟨2, 200, 200⟩).canProceed = false ∧
    applyScaling ratSqrt cfgSafe doc1 (scalePercentParams 200) "new-id" 7 =
      some ⟨false, none,
        (scalingValidationOutcome ratSqrt doc1 ⟨2, 200, 200⟩).results,
        calculateDensityMetrics ratSqrt doc1.colorBlocks,
        calculateDensityMetrics ratSqrt doc1.colorBlocks,
        some "Scaling operation blocked by safe mode. Validation failed."⟩ :=
  ⟨rfl, by decide, by decide,
   applyScaling_safeMode_gate ratSqrt cfgSafe doc1 (scalePercentParams 200)
     "new-id" 7 ⟨2, 200, 200⟩ rfl (by decide) (by decide)⟩

/-- `clamp121` clamps into `[-121, 121]`. -/
theorem clamp121_natAbs_le (v : ℤ) : (clamp121 v).natAbs ≤ 121 := by
  unfold clamp121
  split_ifs <;> omega

/-- Decomposition of the fueled jump loop, given sufficient fuel. -/
theorem writeDSTJumpGo_decomposition :
    ∀ (fuel : ℕ) (dx dy : ℤ), dx.natAbs + dy.natAbs ≤ fuel →
    ∃ steps : List (ℤ × ℤ),
      writeDSTJumpGo fuel dx dy =
        steps.flatMap (fun p => writeDSTRecord p.1 p.2 0x83) ∧
      (∀ p ∈ steps, p.1.natAbs ≤ 121 ∧ p.2.natAbs ≤ 121) ∧
      (steps.map Prod.fst).sum = dx ∧ (steps.map Prod.snd).sum = dy := by
  intro fuel
  induction fuel with
  | zero =>
    intro dx dy hle
    refine ⟨[], rfl, by simp, ?_, ?_⟩ <;> simp <;> omega
  | succ fuel ih =>
    intro dx dy hle
    by_cases hbig : 121 < dx.natAbs ∨ 121 < dy.natAbs
    · have hsum : (dx - clamp121 dx).natAbs + (dy - clamp121 dy).natAbs ≤ fuel := by
        unfold clamp121
        split_ifs <;> omega
      obtain ⟨steps, heq, hb, hsx, hsy⟩ :=
        ih (dx - clamp121 dx) (dy - clamp121 dy) hsum
      refine ⟨(clamp121 dx, clamp121 dy) :: steps, ?_, ?_, ?_, ?_⟩
      · simp only [writeDSTJumpGo, if_pos hbig, List.flatMap_cons, heq]
      · intro p hp
        rcases List.mem_cons.mp hp with h | h
        · subst h; exact ⟨clamp121_natAbs_le dx, clamp121_natAbs_le dy⟩
        · exact hb p h
      · simp [hsx]
      · simp [hsy]
    · by_cases hnz : dx ≠ 0 ∨ dy ≠ 0
      · refine ⟨[(dx, dy)], ?_, ?_, by simp, by simp⟩
        · simp only [writeDSTJumpGo, if_neg hbig, if_pos hnz,
            List.flatMap_cons, List.flatMap_nil, List.append_nil]
        · intro p hp
          rcases List.mem_cons.mp hp with h | h
          · subst h
            constructor <;> omega
          · simp at h
      · refine ⟨[], ?_, by simp, ?_, ?_⟩
        · simp only [writeDSTJumpGo, if_neg hbig, if_neg hnz, List.flatMap_nil]
        · simp; omega
        · simp; omega

/-- C8 (amended): a movement whose delta exceeds 121 units on either axis is
written by `writeDSTJump` as a sequence of records that all carry the jump
flag `0x83` — including the final residual, which does NOT use the stitch's
type-derived flag — each clamped to `[-121, 121]` per axis, and whose deltas
sum to the full movement.  (The type-derived flag is used only in the
`writeDSTStitches` branch where the delta already fits, see
`writeStitchBytes`.) -/
theorem writeDSTJump_splits_into_clamped_jump_records (dx dy : ℤ) :
    ∃ steps : List (ℤ × ℤ),
      writeDSTJump dx dy =
        steps.flatMap (fun p => writeDSTRecord p.1 p.2 0x83) ∧
      (∀ p ∈ steps, p.1.natAbs ≤ 121 ∧ p.2.natAbs ≤ 121) ∧
      (steps.map Prod.fst).sum = dx ∧ (steps.map Prod.snd).sum = dy :=
  writeDSTJumpGo_decomposition (dx.natAbs + dy.natAbs) dx dy le_rfl

/-- Shape of every successful `applyScaling` result: the output document is
the input with a fresh id, the resampled blocks, and metadata updated with
the newly computed scale, the recomputed stitch count, and the timestamp. -/
theorem rescaledDesign_some_shape (sqrtq : ℚ → ℚ) (config : SimpleSkaleConfig)
    (design : DesignDocument) (params : ScaleParams) (newId : String)
    (now : ℕ) (d' : DesignDocument)
    (h : rescaledDesign (applyScaling sqrtq config design params newId now) =
      some d') :
    ∃ sf, calculateScaleFactor design.metadata.originalWidthMm
        design.metadata.originalHeightMm params = some sf ∧
      d' = { design with
        id := newId
        colorBlocks :=
          finalBlocksOf sqrtq config.targetDensityMm design.colorBlocks sf.scale
        metadata := { design.metadata with
          scaleFactor := sf.scale
          currentStitchCount := (calculateDensityMetrics sqrtq
            (finalBlocksOf sqrtq config.targetDensityMm design.colorBlocks
              sf.scale)).totalStitches
          modifiedAt := some now } } := by
  unfold rescaledDesign applyScaling at h
  cases hsf : calculateScaleFactor design.metadata.originalWidthMm
      design.metadata.originalHeightMm params with
  | none => rw [hsf] at h; simp at h
  | some sf =>
    rw [hsf] at h
    dsimp only at h
    by_cases hg : (config.safeMode &&
        !(scalingValidationOutcome sqrtq design sf).canProceed) = true
    · rw [if_pos hg] at h
      simp at h
    · rw [if_neg hg] at h
      simp only [Option.some_bind] at h
      exact ⟨sf, rfl, (Option.some.inj h).symm⟩

/-- C2 counterexample: a document whose `metadata.scaleFactor` is already 2
(from a previous rescale), rescaled to 50%, ends with `scaleFactor = 1/2` —
the newly computed scale itself — and not `1/2 × 2 = 1` as the claim's
"multiplied relative to the input document's existing scaleFactor" requires. -/
theorem scaleFactor_not_cumulative_counterexample :
    docScaled2.metadata.scaleFactor = 2 ∧
    rescaledDesign (applyScaling ratSqrt cfgFree docScaled2
      (scalePercentParams 50) "n" 0) = some docScaled2At50 ∧
    docScaled2At50.metadata.scaleFactor = 1/2 ∧
    (1/2 : ℚ) ≠ 1/2 * 2 := by
  refine ⟨by decide, ?_, by decide, by norm_num⟩
  set_option maxRecDepth 4000 in decide

/-- C2 (amended): the `metadata.scaleFactor` of every document produced by a
successful `applyScaling` equals the newly computed scale itself (which
`calculateScaleFactor` derives from the ORIGINAL import dimensions), replacing
— not multiplying — the input document's previous `scaleFactor`. -/
theorem applyScaling_scaleFactor_eq_new_scale (sqrtq : ℚ → ℚ)
    (config : SimpleSkaleConfig) (design : DesignDocument)
    (params : ScaleParams) (newId : String) (now : ℕ) (sf : ScaleResult)
    (d' : DesignDocument)
    (hsf : calculateScaleFactor design.metadata.originalWidthMm
      design.metadata.originalHeightMm params = some sf)
    (h : rescaledDesign (applyScaling sqrtq config design params newId now) =
      some d') :
    d'.metadata.scaleFactor = sf.scale := by
  obtain ⟨sf', hsf', rfl⟩ :=
    rescaledDesign_some_shape sqrtq config design params newId now d' h
  rw [hsf] at hsf'
  obtain rfl := Option.some.inj hsf'
  rfl

/-- Witness for the amended C2 at `docScaled2`, 50%. -/
theorem applyScaling_scaleFactor_eq_new_scale_witness :
    calculateScaleFactor docScaled2.metadata.originalWidthMm
      docScaled2.metadata.originalHeightMm (scalePercentParams 50) =
        some ⟨1/2, 50, 50⟩ ∧
    rescaledDesign (applyScaling ratSqrt cfgFree docScaled2
      (scalePercentParams 50) "n" 0) = some docScaled2At50 ∧
    docScaled2At50.metadata.scaleFactor = (⟨1/2, 50, 50⟩ : ScaleResult).scale :=
  ⟨by decide, by set_option maxRecDepth 4000 in decide,
   applyScaling_scaleFactor_eq_new_scale ratSqrt cfgFree docScaled2
     (scalePercentParams 50) "n" 0 ⟨1/2, 50, 50⟩ docScaled2At50 (by decide)
     (by set_option maxRecDepth 4000 in decide)⟩

/-- C7 counterexample: rescaling at `scalePercent = 100` does NOT succeed for
every document: a single-stitch document has average density 0, which
`validateStitchDensity` grades `Critical` (blocked), so under the default
safe-mode configuration the engine returns `success = false` and no
document. -/
theorem scale100_not_always_succeeds :
    (applyScaling ratSqrt cfgSafe docOne (scalePercentParams 100) "n" 0).map
      (fun r => r.success) = some false ∧
    rescaledDesign (applyScaling ratSqrt cfgSafe docOne
      (scalePercentParams 100) "n" 0) = none := by
  exact ⟨by decide, by decide⟩

/-- Scaling a stitch by 1 is the identity. -/
theorem scaleStitch_one (s : Stitch) : scaleStitch 1 s = s := by
  cases s with
  | mk pos t c => cases pos; simp [scaleStitch]

/-- Scaling a block by 1 is the identity. -/
theorem scaleBlock_one (b : ColorBlock) : scaleBlock 1 b = b := by
  have h : scaleStitch (1 : ℚ) = id := funext scaleStitch_one
  cases b with
  | mk c stitches => simp [scaleBlock, h]

/-- Scaling coordinates by 1 is the identity. -/
theorem scaleCoordinates_one (bs : List ColorBlock) :
    scaleCoordinates bs 1 = bs := by
  have h : scaleBlock (1 : ℚ) = id := funext scaleBlock_one
  simp [scaleCoordinates, h]

/-- At scale exactly 1, neither resampling branch fires and the blocks are
returned unchanged. -/
theorem finalBlocksOf_one (sqrtq : ℚ → ℚ) (t : ℚ) (bs : List ColorBlock) :
    finalBlocksOf sqrtq t bs 1 = bs := by
  unfold finalBlocksOf
  norm_num [scaleCoordinates_one]

/-- C7 (amended): whenever a rescale at `scalePercent = 100` succeeds, the
produced document's color blocks — all stitch positions, types, counts — are
unchanged from the input, and besides the fresh `id` and `modifiedAt`, the
only metadata fields written are `scaleFactor` (set to 1, regardless of its
previous value) and `currentStitchCount` (recomputed as the actual stitch
count). -/
theorem applyScaling_scale100_identity (sqrtq : ℚ → ℚ)
    (config : SimpleSkaleConfig) (design : DesignDocument) (newId : String)
    (now : ℕ) (d' : DesignDocument)
    (h : rescaledDesign (applyScaling sqrtq config design
      (scalePercentParams 100) newId now) = some d') :
    d'.colorBlocks = design.colorBlocks ∧
    d'.id = newId ∧
    d'.name = design.name ∧
    d'.originalFormat = design.originalFormat ∧
    d'.threads = design.threads ∧
    d'.machineProfile = design.machineProfile ∧
    d'.metadata = { design.metadata with
      scaleFactor := 1
      currentStitchCount := (allStitches design.colorBlocks).length
      modifiedAt := some now } := by
  obtain ⟨sf, hsf, rfl⟩ := rescaledDesign_some_shape sqrtq config design
    (scalePercentParams 100) newId now d' h
  have hsf' : sf = ⟨1, design.metadata.originalWidthMm * 1,
      design.metadata.originalHeightMm * 1⟩ := by
    unfold calculateScaleFactor scalePercentParams at hsf
    dsimp only at hsf
    have h100 : (100 : ℚ) / 100 = 1 := by norm_num
    rw [h100] at hsf
    exact (Option.some.inj hsf).symm
  subst hsf'
  simp [finalBlocksOf_one, calculateDensityMetrics_totalStitches]

/-- Witness for the amended C7 at `doc1` (safe mode off so the rescale
succeeds). -/
theorem applyScaling_scale100_identity_witness :
    rescaledDesign (applyScaling ratSqrt cfgFree doc1
      (scalePercentParams 100) "n" 0) = some doc1At100 ∧
    (doc1At100.colorBlocks = doc1.colorBlocks ∧
     doc1At100.id = "n" ∧
     doc1At100.name = doc1.name ∧
     doc1At100.originalFormat = doc1.originalFormat ∧
     doc1At100.threads = doc1.threads ∧
     doc1At100.machineProfile = doc1.machineProfile ∧
     doc1At100.metadata = { doc1.metadata with
       scaleFactor := 1
       currentStitchCount := (allStitches doc1.colorBlocks).length
       modifiedAt := some 0 }) :=
  ⟨by set_option maxRecDepth 4000 in decide,
   applyScaling_scale100_identity ratSqrt cfgFree doc1 "n" 0 doc1At100
     (by set_option maxRecDepth 4000 in decide)⟩

/-- A scaled stitch keeps its type. -/
theorem scaleStitch_type (c : ℚ) (s : Stitch) :
    (scaleStitch c s).type = s.type := rfl

/-- Mapping a per-block function that preserves `specialCount` preserves the
list of per-block special counts. -/
theorem map_specialCount_of_preserves (f : ColorBlock → ColorBlock)
    (hf : ∀ b, specialCount (f b) = specialCount b) :
    ∀ bs : List ColorBlock,
      (bs.map f).map specialCount = bs.map specialCount := by
  intro bs
  induction bs with
  | nil => rfl
  | cons b rest ih => simp [hf, ih]

/-- Coordinate scaling preserves a block's special-stitch count. -/
theorem specialCount_scaleBlock (c : ℚ) (b : ColorBlock) :
    specialCount (scaleBlock c b) = specialCount b := by
  unfold specialCount scaleBlock
  simp [List.countP_map]
  rfl

/-- The stitches inserted by upscale interpolation are never special: they
inherit the type of the earlier stitch, and insertion happens only when that
stitch is not special. -/
theorem countP_interpolatedBetween_eq_zero (sqrtq : ℚ → ℚ) (tU : ℚ)
    (cur next : Stitch) (h : isSpecialStitch cur.type = false) :
    (interpolatedBetween sqrtq tU cur next).countP
      (fun s => isSpecialStitch s.type) = 0 := by
  unfold interpolatedBetween
  dsimp only
  split
  · rw [List.countP_eq_zero]
    intro s hs
    rw [List.mem_map] at hs
    obtain ⟨k, _, rfl⟩ := hs
    simpa using h
  · rfl

/-- The interpolation walk preserves the special-stitch count. -/
theorem countP_interpGo (sqrtq : ℚ → ℚ) (tU : ℚ) :
    ∀ (l : List Stitch) (cur : Stitch),
      (interpGo sqrtq tU cur l).countP (fun s => isSpecialStitch s.type) =
      (cur :: l).countP (fun s => isSpecialStitch s.type) := by
  intro l
  induction l with
  | nil => intro cur; rfl
  | cons next rest ih =>
    intro cur
    by_cases hs : isSpecialStitch cur.type
    · rw [interpGo, if_pos hs]
      simp [List.countP_cons, ih next]
    · rw [interpGo, if_neg hs]
      have hz := countP_interpolatedBetween_eq_zero sqrtq tU cur next
        (Bool.not_eq_true _ ▸ eq_false_of_ne_true hs)
      simp [List.countP_cons, List.countP_append, ih next, hz]

/-- Interpolating a block preserves its special-stitch count. -/
theorem specialCount_interpolateBlock (sqrtq : ℚ → ℚ) (tU : ℚ)
    (b : ColorBlock) :
    specialCount (interpolateBlock sqrtq tU b) = specialCount b := by
  unfold interpolateBlock
  split
  · rfl
  · cases hst : b.stitches with
    | nil => simp [specialCount, hst]
    | cons s rest =>
      simp only [specialCount, hst]
      rw [countP_interpGo sqrtq tU rest s]

/-- The reduction walk preserves the special-stitch count (it only ever drops
non-special stitches). -/
theorem countP_removeGo (sqrtq : ℚ → ℚ) (minD : ℚ) :
    ∀ (l : List Stitch) (lastKept : Stitch),
      (removeGo sqrtq minD lastKept l).countP
        (fun s => isSpecialStitch s.type) =
      l.countP (fun s => isSpecialStitch s.type) := by
  intro l
  induction l with
  | nil => intro lastKept; rfl
  | cons cur rest ih =>
    intro lastKept
    by_cases hs : isSpecialStitch cur.type
    · rw [removeGo, if_pos hs]
      simp [List.countP_cons, ih cur, hs]
    · rw [removeGo, if_neg hs]
      by_cases hd : distance sqrtq lastKept.position cur.position ≥ minD
      · rw [if_pos hd]
        simp [List.countP_cons, ih cur, hs]
      · rw [if_neg hd]
        simp [List.countP_cons, ih lastKept, hs]

/-- Reducing a block preserves its special-stitch count. -/
theorem specialCount_reduceBlock (sqrtq : ℚ → ℚ) (minD : ℚ) (b : ColorBlock) :
    specialCount (reduceBlock sqrtq minD b) = specialCount b := by
  unfold reduceBlock
  split
  · rfl
  · cases hst : b.stitches with
    | nil => simp [specialCount, hst]
    | cons s rest =>
      simp only [specialCount, hst]
      rw [List.countP_cons, List.countP_cons, countP_removeGo sqrtq minD rest s]

/-- The whole post-gate pipeline preserves the per-block special counts. -/
theorem map_specialCount_finalBlocksOf (sqrtq : ℚ → ℚ) (t : ℚ)
    (bs : List ColorBlock) (scale : ℚ) :
    (finalBlocksOf sqrtq t bs scale).map specialCount =
      bs.map specialCount := by
  unfold finalBlocksOf
  dsimp only
  have hscale : (scaleCoordinates bs scale).map specialCount =
      bs.map specialCount :=
    map_specialCount_of_preserves (scaleBlock scale)
      (specialCount_scaleBlock scale) bs
  split
  · rw [addInterpolatedStitches,
      map_specialCount_of_preserves (interpolateBlock sqrtq (t * 10))
        (specialCount_interpolateBlock sqrtq (t * 10)), hscale]
  · split
    · rw [removeExcessStitches,
        map_specialCount_of_preserves (reduceBlock sqrtq (t * 10 * 0.7))
          (specialCount_reduceBlock sqrtq (t * 10 * 0.7)), hscale]
    · exact hscale

/-- C4: whenever `applyScaling` succeeds, the number of special stitches
(`jump`, `trim`, `stop`, `end`) in each output block equals the number in the
corresponding input block — interpolation never inserts a special stitch,
reduction keeps every special stitch, and coordinate scaling only moves
them. -/
theorem applyScaling_preserves_special_stitches (sqrtq : ℚ → ℚ)
    (config : SimpleSkaleConfig) (design : DesignDocument)
    (params : ScaleParams) (newId : String) (now : ℕ) (d' : DesignDocument)
    (h : rescaledDesign (applyScaling sqrtq config design params newId now) =
      some d') :
    d'.colorBlocks.map specialCount = design.colorBlocks.map specialCount := by
  obtain ⟨sf, _, rfl⟩ :=
    rescaledDesign_some_shape sqrtq config design params newId now d' h
  exact map_specialCount_finalBlocksOf sqrtq config.targetDensityMm
    design.colorBlocks sf.scale

/-- Witness for C4: `docSpec` (one `trim` between two runs) downscaled to 50%
keeps exactly its one special stitch per block. -/
theorem applyScaling_preserves_special_stitches_witness :
    rescaledDesign (applyScaling ratSqrt cfgFree docSpec
      (scalePercentParams 50) "n" 0) = some docSpecAt50 ∧
    docSpecAt50.colorBlocks.map specialCount =
      docSpec.colorBlocks.map specialCount :=
  ⟨by set_option maxRecDepth 8000 in decide,
   applyScaling_preserves_special_stitches ratSqrt cfgFree docSpec
     (scalePercentParams 50) "n" 0 docSpecAt50
     (by set_option maxRecDepth 8000 in decide)⟩

/-- Consecutive pairs of a two-or-more list unfold one step at a time. -/
theorem consecPairs_cons_cons {α : Type} (a b : α) (l : List α) :
    consecPairs (a :: b :: l) = (a, b) :: consecPairs (b :: l) := rfl

/-- Lists with fewer than two elements have no consecutive pairs. -/
theorem consecPairs_short {α : Type} :
    ∀ l : List α, l.length < 2 → consecPairs l = [] := by
  intro l h
  match l, h with
  | [], _ => rfl
  | [a], _ => rfl

/-- Every kept stitch that is not special was admitted by the distance test
against the immediately preceding KEPT stitch, so every consecutive pair of
the filtered list whose later element is non-special is at least `minD`
apart. -/
theorem removeGo_chain (sqrtq : ℚ → ℚ) (minD : ℚ) :
    ∀ (l : List Stitch) (lastKept : Stitch) (p : Stitch × Stitch),
      p ∈ consecPairs (lastKept :: removeGo sqrtq minD lastKept l) →
      isSpecialStitch p.2.type = false →
      distance sqrtq p.1.position p.2.position ≥ minD := by
  intro l
  induction l with
  | nil =>
    intro lastKept p hp _
    simp [removeGo, consecPairs] at hp
  | cons cur rest ih =>
    intro lastKept p hp hns
    by_cases hs : isSpecialStitch cur.type
    · rw [removeGo, if_pos hs, consecPairs_cons_cons] at hp
      rcases List.mem_cons.mp hp with h | h
      · subst h
        rw [hns] at hs
        exact absurd hs (by simp)
      · exact ih cur p h hns
    · rw [removeGo, if_neg hs] at hp
      by_cases hd : distance sqrtq lastKept.position cur.position ≥ minD
      · rw [if_pos hd, consecPairs_cons_cons] at hp
        rcases List.mem_cons.mp hp with h | h
        · subst h; exact hd
        · exact ih cur p h hns
      · rw [if_neg hd] at hp
        exact ih lastKept p hp hns

/-- C6: in every block output by downscale reduction, no two consecutive kept
stitches of which the later one is non-special are closer than
`0.7 × targetDensityMm × 10` units; distances are measured from the last
RETAINED stitch, exactly as the filter measures them. -/
theorem removeExcessStitches_min_gap (sqrtq : ℚ → ℚ)
    (blocks : List ColorBlock) (targetDensityMm : ℚ) (b' : ColorBlock)
    (hb : b' ∈ removeExcessStitches sqrtq blocks targetDensityMm)
    (p : Stitch × Stitch) (hp : p ∈ consecPairs b'.stitches)
    (hns : isSpecialStitch p.2.type = false) :
    distance sqrtq p.1.position p.2.position ≥ targetDensityMm * 10 * 0.7 := by
  unfold removeExcessStitches at hb
  rw [List.mem_map] at hb
  obtain ⟨b, _, rfl⟩ := hb
  unfold reduceBlock at hp
  by_cases hlen : b.stitches.length < 2
  · rw [if_pos hlen] at hp
    rw [consecPairs_short b.stitches hlen] at hp
    simp at hp
  · rw [if_neg hlen] at hp
    rcases hst : b.stitches with _ | ⟨s, rest⟩
    · rw [hst] at hlen; simp at hlen
    · rw [hst] at hp
      exact removeGo_chain sqrtq (targetDensityMm * 10 * 0.7) rest s p hp hns

/-- Witness for C6: two run stitches 10 units apart survive reduction at the
default target density, and their gap is at least `0.425 × 10 × 0.7`. -/
theorem removeExcessStitches_min_gap_witness :
    (⟨0, [stR 0 0, stR 10 0]⟩ : ColorBlock) ∈
      removeExcessStitches ratSqrt [⟨0, [stR 0 0, stR 10 0]⟩] 0.425 ∧
    (stR 0 0, stR 10 0) ∈
      consecPairs (⟨0, [stR 0 0, stR 10 0]⟩ : ColorBlock).stitches ∧
    isSpecialStitch (stR 10 0).type = false ∧
    distance ratSqrt (stR 0 0).position (stR 10 0).position ≥
      (0.425 : ℚ) * 10 * 0.7 :=
  ⟨by decide, by decide, by decide,
   removeExcessStitches_min_gap ratSqrt [⟨0, [stR 0 0, stR 10 0]⟩] 0.425
     ⟨0, [stR 0 0, stR 10 0]⟩ (by decide) (stR 0 0, stR 10 0) (by decide)
     (by decide)⟩

/-- Appending one block appends its coordinates. -/
theorem blocksXs_append_block (bs : List ColorBlock) (b : ColorBlock) :
    blocksXs (bs ++ [b]) =
      blocksXs bs ++ b.stitches.map (fun s => s.position.x) := by
  simp [blocksXs, allStitches]

/-- Appending one block appends its coordinates. -/
theorem blocksYs_append_block (bs : List ColorBlock) (b : ColorBlock) :
    blocksYs (bs ++ [b]) =
      blocksYs bs ++ b.stitches.map (fun s => s.position.y) := by
  simp [blocksYs, allStitches]

/-- Folding `min` over one more element. -/
theorem foldl_min_append (a x : ℚ) (l : List ℚ) :
    List.foldl min a (l ++ [x]) = min (List.foldl min a l) x := by
  simp [List.foldl_append]

/-- Folding `max` over one more element. -/
theorem foldl_max_append (a x : ℚ) (l : List ℚ) :
    List.foldl max a (l ++ [x]) = max (List.foldl max a l) x := by
  simp [List.foldl_append]

/-- The coordinates of a finalized DST parse are exactly the coordinates
tracked by the loop. -/
theorem blocksXs_dstFinalize (st : DSTState) :
    blocksXs (dstFinalize st).colorBlocks = dstXs st := by
  unfold dstFinalize dstXs
  by_cases hc : st.cur.isEmpty
  · rw [if_pos hc]
    have : st.cur = [] := List.isEmpty_iff.mp hc
    simp [this, blocksXs]
  · rw [if_neg hc]
    simp [blocksXs_append_block]

/-- The coordinates of a finalized DST parse are exactly the coordinates
tracked by the loop. -/
theorem blocksYs_dstFinalize (st : DSTState) :
    blocksYs (dstFinalize st).colorBlocks = dstYs st := by
  unfold dstFinalize dstYs
  by_cases hc : st.cur.isEmpty
  · rw [if_pos hc]
    have : st.cur = [] := List.isEmpty_iff.mp hc
    simp [this, blocksYs]
  · rw [if_neg hc]
    simp [blocksYs_append_block]

/-- A finalized DST parse of an invariant-respecting state is
origin-anchored. -/
theorem dstFinalize_anchored (st : DSTState) (hinv : dstInv st) :
    boundsAnchored (dstFinalize st) := by
  obtain ⟨h1, h2, h3, h4, _, _, _, _⟩ := hinv
  unfold boundsAnchored
  rw [blocksXs_dstFinalize, blocksYs_dstFinalize]
  refine ⟨?_, ?_, ?_, ?_, ?_, ?_⟩ <;> simp [dstFinalize, h1, h2, h3, h4]

/-- Emitting a stitch at the freshly tracked position preserves the DST loop
invariant. -/
theorem dstInv_emit (st : DSTState) (hinv : dstInv st) (x y : ℚ)
    (stype : StitchType) (cidx : ℤ) (c' : ℤ) :
    dstInv ⟨st.blocks, st.cur ++ [⟨⟨x, y⟩, stype, cidx⟩], c', x, y,
      min st.minX x, min st.minY y, max st.maxX x, max st.maxY y⟩ := by
  obtain ⟨h1, h2, h3, h4, h5, h6, h7, h8⟩ := hinv
  have hxs : dstXs ⟨st.blocks, st.cur ++ [⟨⟨x, y⟩, stype, cidx⟩], c', x, y,
      min st.minX x, min st.minY y, max st.maxX x, max st.maxY y⟩ =
      dstXs st ++ [x] := by
    simp [dstXs]
  have hys : dstYs ⟨st.blocks, st.cur ++ [⟨⟨x, y⟩, stype, cidx⟩], c', x, y,
      min st.minX x, min st.minY y, max st.maxX x, max st.maxY y⟩ =
      dstYs st ++ [y] := by
    simp [dstYs]
  refine ⟨?_, ?_, ?_, ?_, ?_, ?_, ?_, ?_⟩
  · rw [hxs, foldl_min_append, ← h1]
  · rw [hxs, foldl_max_append, ← h2]
  · rw [hys, foldl_min_append, ← h3]
  · rw [hys, foldl_max_append, ← h4]
  · exact min_le_right _ _
  · exact le_max_right _ _
  · exact min_le_right _ _
  · exact le_max_right _ _

/-- A color change (close the block, open a new one holding only the stop
marker at the current position) preserves the DST loop invariant. -/
theorem dstInv_colorchange (st : DSTState) (hinv : dstInv st) (x y : ℚ)
    (c : ℤ) :
    dstInv ⟨st.blocks ++
        (if st.cur.isEmpty then [] else [⟨st.curColor, st.cur⟩]),
      [⟨⟨x, y⟩, .stop, c⟩], c, x, y,
      min st.minX x, min st.minY y, max st.maxX x, max st.maxY y⟩ := by
  obtain ⟨h1, h2, h3, h4, h5, h6, h7, h8⟩ := hinv
  have hxs : dstXs ⟨st.blocks ++
        (if st.cur.isEmpty then [] else [⟨st.curColor, st.cur⟩]),
      [⟨⟨x, y⟩, .stop, c⟩], c, x, y,
      min st.minX x, min st.minY y, max st.maxX x, max st.maxY y⟩ =
      dstXs st ++ [x] := by
    by_cases hc : st.cur.isEmpty
    · have hnil : st.cur = [] := List.isEmpty_iff.mp hc
      simp [dstXs, hnil, hc]
    · simp only [dstXs, if_neg hc, blocksXs_append_block]
      simp
  have hys : dstYs ⟨st.blocks ++
        (if st.cur.isEmpty then [] else [⟨st.curColor, st.cur⟩]),
      [⟨⟨x, y⟩, .stop, c⟩], c, x, y,
      min st.minX x, min st.minY y, max st.maxX x, max st.maxY y⟩ =
      dstYs st ++ [y] := by
    by_cases hc : st.cur.isEmpty
    · have hnil : st.cur = [] := List.isEmpty_iff.mp hc
      simp [dstYs, hnil, hc]
    · simp only [dstYs, if_neg hc, blocksYs_append_block]
      simp
  refine ⟨?_, ?_, ?_, ?_, ?_, ?_, ?_, ?_⟩
  · rw [hxs, foldl_min_append, ← h1]
  · rw [hxs, foldl_max_append, ← h2]
  · rw [hys, foldl_min_append, ← h3]
  · rw [hys, foldl_max_append, ← h4]
  · exact min_le_right _ _
  · exact le_max_right _ _
  · exact min_le_right _ _
  · exact le_max_right _ _

/-- Any successful run of the DST stitch loop from an invariant-respecting
state produces origin-anchored bounds. -/
theorem parseDSTGo_anchored :
    ∀ (bytes : List ℕ) (st : DSTState), dstInv st →
      ∀ r, parseDSTGo bytes st = some r → boundsAnchored r := by
  intro bytes st
  induction bytes, st using parseDSTGo.induct with
  | case1 st =>
    intro hinv r hr
    simp only [parseDSTGo] at hr
    exact (Option.some.inj hr) ▸ dstFinalize_anchored st hinv
  | case2 b1 b2 b3 rest st heof =>
    intro hinv r hr
    simp only [parseDSTGo, if_pos heof] at hr
    exact (Option.some.inj hr) ▸ dstFinalize_anchored st hinv
  | case3 b1 b2 b3 rest st hno icc dx dy x y st1 hcc ih =>
    intro hinv r hr
    simp only [parseDSTGo, if_neg hno, if_pos hcc] at hr
    exact ih (dstInv_colorchange st hinv x y (st.curColor + 1)) r hr
  | case4 b1 b2 b3 rest st hno icc iend hncc hend =>
    intro hinv r hr
    exact absurd ⟨by rw [hend.2]; decide, by rw [hend.2]; decide⟩ hncc
  | case5 b1 b2 b3 rest st hno icc iend dx dy x y st1 hncc hnend stype hnz ih =>
    intro hinv r hr
    simp only [parseDSTGo, if_neg hno, if_neg hncc, if_neg hnend, if_pos hnz] at hr
    exact ih (dstInv_emit st hinv x y stype st.curColor st.curColor) r hr
  | case6 b1 b2 b3 rest st hno icc iend dx dy x y st1 hncc hnend hz ih =>
    intro hinv r hr
    simp only [parseDSTGo, if_neg hno, if_neg hncc, if_neg hnend, if_neg hz] at hr
    have hdxy : dx = 0 ∧ dy = 0 := by
      push_neg at hz
      exact hz
    have hx : x = st.x := by
      show st.x + dx = st.x
      rw [hdxy.1, add_zero]
    have hy : y = st.y := by
      show st.y + dy = st.y
      rw [hdxy.2, add_zero]
    have hst1 : st1 = st := by
      show (⟨st.blocks, st.cur, st.curColor, x, y,
        min st.minX x, min st.minY y, max st.maxX x, max st.maxY y⟩ :
          DSTState) = st
      obtain ⟨h1, h2, h3, h4, h5, h6, h7, h8⟩ := hinv
      rw [hx, hy]
      cases st with
      | mk blocks cur curColor sx sy mnx mny mxx mxy =>
        simp only [DSTState.mk.injEq, true_and]
        exact ⟨min_eq_left h5, min_eq_left h7, max_eq_left h6, max_eq_left h8⟩
    exact ih (hst1 ▸ hinv) r hr
  | case7 t st hne hn3 =>
    intro hinv r hr
    rcases t with _ | ⟨a, _ | ⟨b, _ | ⟨c, rest⟩⟩⟩
    · exact absurd rfl hne
    · have hnone : parseDSTGo [a] st = none := rfl
      rw [hnone] at hr
      exact Option.noConfusion hr
    · have hnone : parseDSTGo [a, b] st = none := rfl
      rw [hnone] at hr
      exact Option.noConfusion hr
    · exact absurd rfl (hn3 a b c rest)

/-- The coordinates of a finalized PES parse are the tracked coordinates. -/
theorem blocksXs_pesFinalize (colorCount : ℤ) (st : PESState) :
    blocksXs (pesFinalize colorCount st).colorBlocks = pesXs st := by
  unfold pesFinalize pesXs
  by_cases hc : st.cur.isEmpty
  · rw [if_pos hc]
    have hnil : st.cur = [] := List.isEmpty_iff.mp hc
    simp [hnil, blocksXs]
  · rw [if_neg hc]
    simp [blocksXs_append_block]

/-- The coordinates of a finalized PES parse are the tracked coordinates. -/
theorem blocksYs_pesFinalize (colorCount : ℤ) (st : PESState) :
    blocksYs (pesFinalize colorCount st).colorBlocks = pesYs st := by
  unfold pesFinalize pesYs
  by_cases hc : st.cur.isEmpty
  · rw [if_pos hc]
    have hnil : st.cur = [] := List.isEmpty_iff.mp hc
    simp [hnil, blocksYs]
  · rw [if_neg hc]
    simp [blocksYs_append_block]

/-- A finalized PES parse of an invariant-respecting state is
origin-anchored. -/
theorem pesFinalize_anchored (colorCount : ℤ) (st : PESState)
    (hinv : pesInv st) : boundsAnchored (pesFinalize colorCount st) := by
  obtain ⟨h1, h2, h3, h4, _, _, _, _⟩ := hinv
  unfold boundsAnchored
  rw [blocksXs_pesFinalize, blocksYs_pesFinalize]
  refine ⟨?_, ?_, ?_, ?_, ?_, ?_⟩ <;> simp [pesFinalize, h1, h2, h3, h4]

/-- Emitting a stitch at the freshly tracked position preserves the PES loop
invariant. -/
theorem pesInv_emit (st : PESState) (hinv : pesInv st) (x y : ℚ)
    (stype : StitchType) (cidx : ℤ) (c' : ℤ) :
    pesInv ⟨st.blocks, st.cur ++ [⟨⟨x, y⟩, stype, cidx⟩], c', x, y,
      min st.minX x, min st.minY y, max st.maxX x, max st.maxY y⟩ := by
  obtain ⟨h1, h2, h3, h4, h5, h6, h7, h8⟩ := hinv
  have hxs : pesXs ⟨st.blocks, st.cur ++ [⟨⟨x, y⟩, stype, cidx⟩], c', x, y,
      min st.minX x, min st.minY y, max st.maxX x, max st.maxY y⟩ =
      pesXs st ++ [x] := by
    simp [pesXs]
  have hys : pesYs ⟨st.blocks, st.cur ++ [⟨⟨x, y⟩, stype, cidx⟩], c', x, y,
      min st.minX x, min st.minY y, max st.maxX x, max st.maxY y⟩ =
      pesYs st ++ [y] := by
    simp [pesYs]
  refine ⟨?_, ?_, ?_, ?_, ?_, ?_, ?_, ?_⟩
  · rw [hxs, foldl_min_append, ← h1]
  · rw [hxs, foldl_max_append, ← h2]
  · rw [hys, foldl_min_append, ← h3]
  · rw [hys, foldl_max_append, ← h4]
  · exact min_le_right _ _
  · exact le_max_right _ _
  · exact min_le_right _ _
  · exact le_max_right _ _

/-- A PES color change (marker at the unchanged position, bounds untouched)
preserves the loop invariant. -/
theorem pesInv_colorchange (st : PESState) (hinv : pesInv st) (c : ℤ)
    (cc : ℤ) (newIdx : ℤ) :
    pesInv ⟨st.blocks ++ (if st.cur.isEmpty then [] else [⟨c, st.cur⟩]),
      [⟨⟨st.x, st.y⟩, .stop, cc⟩], newIdx, st.x, st.y,
      st.minX, st.minY, st.maxX, st.maxY⟩ := by
  obtain ⟨h1, h2, h3, h4, h5, h6, h7, h8⟩ := hinv
  have hxs : pesXs ⟨st.blocks ++
        (if st.cur.isEmpty then [] else [⟨c, st.cur⟩]),
      [⟨⟨st.x, st.y⟩, .stop, cc⟩], newIdx, st.x, st.y,
      st.minX, st.minY, st.maxX, st.maxY⟩ = pesXs st ++ [st.x] := by
    by_cases hc : st.cur.isEmpty
    · have hnil : st.cur = [] := List.isEmpty_iff.mp hc
      simp [pesXs, hnil, hc]
    · simp only [pesXs, if_neg hc, blocksXs_append_block]
      simp
  have hys : pesYs ⟨st.blocks ++
        (if st.cur.isEmpty then [] else [⟨c, st.cur⟩]),
      [⟨⟨st.x, st.y⟩, .stop, cc⟩], newIdx, st.x, st.y,
      st.minX, st.minY, st.maxX, st.maxY⟩ = pesYs st ++ [st.y] := by
    by_cases hc : st.cur.isEmpty
    · have hnil : st.cur = [] := List.isEmpty_iff.mp hc
      simp [pesYs, hnil, hc]
    · simp only [pesYs, if_neg hc, blocksYs_append_block]
      simp
  refine ⟨?_, ?_, ?_, ?_, h5, h6, h7, h8⟩
  · rw [hxs, foldl_min_append, ← h1]
    exact (min_eq_left h5).symm
  · rw [hxs, foldl_max_append, ← h2]
    exact (max_eq_left h6).symm
  · rw [hys, foldl_min_append, ← h3]
    exact (min_eq_left h7).symm
  · rw [hys, foldl_max_append, ← h4]
    exact (max_eq_left h8).symm

/-- Any successful run of the PES stitch loop from an invariant-respecting
state produces origin-anchored bounds. -/
theorem parsePESGo_anchored (colorCount : ℤ) :
    ∀ (bytes : List ℕ) (st : PESState), pesInv st →
      ∀ r, parsePESGo colorCount bytes st = some r → boundsAnchored r := by
  intro bytes st
  induction bytes, st using parsePESGo.induct colorCount with
  | case1 st =>
    intro hinv r hr
    simp only [parsePESGo] at hr
    exact (Option.some.inj hr) ▸ pesFinalize_anchored colorCount st hinv
  | case2 b1 b2 rest st heof =>
    intro hinv r hr
    simp only [parsePESGo, if_pos heof] at hr
    exact (Option.some.inj hr) ▸ pesFinalize_anchored colorCount st hinv
  | case3 b1 b2 rest st heof hcc ih =>
    intro hinv r hr
    simp only [parsePESGo, if_neg heof, if_pos hcc] at hr
    exact ih (pesInv_colorchange st hinv (st.curColorIndex % colorCount)
      ((st.curColorIndex + 1) % colorCount) (st.curColorIndex + 1)) r hr
  | case4 b1 b2 rest st heof hncc dx dy x y stype ih =>
    intro hinv r hr
    simp only [parsePESGo, if_neg heof, if_neg hncc] at hr
    exact ih (pesInv_emit st hinv x y stype
      (st.curColorIndex % colorCount) st.curColorIndex) r hr
  | case5 t st hne hn2 =>
    intro hinv r hr
    rcases t with _ | ⟨a, _ | ⟨b, rest⟩⟩
    · exact absurd rfl hne
    · have hnone : parsePESGo colorCount [a] st = none := rfl
      rw [hnone] at hr
      exact Option.noConfusion hr
    · exact absurd rfl (hn2 a b rest)

/-- The DST loop's initial state satisfies the invariant. -/
theorem dstInv_init : dstInv dstInitState :=
  ⟨rfl, rfl, rfl, rfl, le_refl 0, le_refl 0, le_refl 0, le_refl 0⟩

/-- The PES loop's initial state satisfies the invariant. -/
theorem pesInv_init : pesInv pesInitState :=
  ⟨rfl, rfl, rfl, rfl, le_refl 0, le_refl 0, le_refl 0, le_refl 0⟩

/-- C10: for every DST buffer and every PES stitch stream that parse
successfully, the tracked bounds are seeded at the origin before any stitch is
read: each reported bound equals the fold of `min`/`max` seeded at 0 over the
output stitch coordinates, so the reported width is
`max(maxX, 0) − min(minX, 0)` (and likewise for height), the bounds always
contain the point `(0, 0)`, and a design lying entirely on one side of the
origin reports dimensions larger than its actual stitch extent. -/
theorem parse_bounds_origin_anchored (dstBytes pesBytes : List ℕ)
    (colorCount : ℤ) (rd rp : StitchParseOut)
    (hd : parseDSTStitches dstBytes = some rd)
    (hp : parsePESStitchData colorCount pesBytes = some rp) :
    boundsAnchored rd ∧ boundsAnchored rp :=
  ⟨parseDSTGo_anchored dstBytes dstInitState dstInv_init rd hd,
   parsePESGo_anchored colorCount pesBytes pesInitState pesInv_init rp hp⟩

/-- Witness for C10: a DST record moving 81 units right and a PES record
moving 10 units right each produce a one-sided design whose reported width
equals the full distance from the origin. -/
theorem parse_bounds_origin_anchored_witness :
    parseDSTStitches [0, 1, 3] =
      some ⟨[⟨0, [⟨⟨81, 0⟩, .run, 0⟩]⟩], ⟨0, 0, 81, 0, 81, 0⟩⟩ ∧
    parsePESStitchData 1 [10, 0] =
      some ⟨[⟨0, [⟨⟨10, 0⟩, .run, 0⟩]⟩], ⟨0, 0, 10, 0, 10, 0⟩⟩ ∧
    (boundsAnchored ⟨[⟨0, [⟨⟨81, 0⟩, .run, 0⟩]⟩], ⟨0, 0, 81, 0, 81, 0⟩⟩ ∧
     boundsAnchored ⟨[⟨0, [⟨⟨10, 0⟩, .run, 0⟩]⟩], ⟨0, 0, 10, 0, 10, 0⟩⟩) :=
  ⟨by decide, by decide,
   parse_bounds_origin_anchored [0, 1, 3] [10, 0] 1
     ⟨[⟨0, [⟨⟨81, 0⟩, .run, 0⟩]⟩], ⟨0, 0, 81, 0, 81, 0⟩⟩
     ⟨[⟨0, [⟨⟨10, 0⟩, .run, 0⟩]⟩], ⟨0, 0, 10, 0, 10, 0⟩⟩
     (by decide) (by decide)⟩
